import Mathlib

/-!
Verification of `src/resolucao/sistema_refatorado.py`, an order-processing
orchestrator (`ProcessadorDePedidos`) over polymorphic payment methods
(`MetodoPagamento`) and notifiers (`Notificador`), with a factory
(`FabricaProcessadores`) assembling fixed combinations.

Modelling choices:
* A Python order is a dict; we model it as a record whose four relevant
  keys are `Option`-valued, `none` meaning the key is absent.  Reading an
  absent key (as the f-strings in the source do) raises `KeyError`; we model
  a raised exception as `Except.error ()`.
* A payment method or notifier is, through the abstract interfaces
  `MetodoPagamento` / `Notificador`, any function from an order to a
  boolean that may also raise; we model it as `Pedido → Except Unit Bool`.
  Per the interface (and the concrete variants in the source) these
  components read the order but never mutate it.
* `processar` is translated statement by statement.  The observable calls
  (the payment call and each notifier call) are recorded in an event trace.
  The `try`/`except` of the source is split into `processarCorpo` (the try
  block, which may end in an exception) and `processar` (the catch,
  converting any exception into a `False` return).  The only mutation in
  the try block, `pedido['status'] = 'concluido'`, is the last operation
  that can precede the `return True` and is followed by no statement that
  can raise, so on the exception path the order still holds its input
  value; the catch branch therefore returns the input order.
-/

/-- A Python order dict.  `none` in a field means the key is absent from
the dict.  Keys: `'id'`, `'valor'`, `'cliente_email'`, `'status'`. -/
structure Pedido where
  id : Option Int
  valor : Option ℚ
  cliente_email : Option String
  status : Option String
deriving DecidableEq, Repr

/-- `PagamentoCartaoCredito.processar_pagamento`: prints the amount
(reading `pedido['valor']`, which raises if absent) and returns `True`. -/
def PagamentoCartaoCredito (pedido : Pedido) : Except Unit Bool :=
  match pedido.valor with
  | none => Except.error ()
  | some _ => Except.ok true

/-- `PagamentoBoleto.processar_pagamento`: prints the amount
(reading `pedido['valor']`) and returns `True`. -/
def PagamentoBoleto (pedido : Pedido) : Except Unit Bool :=
  match pedido.valor with
  | none => Except.error ()
  | some _ => Except.ok true

/-- `PagamentoPix.processar_pagamento`: prints the amount
(reading `pedido['valor']`) and the QR-code line, returns `True`. -/
def PagamentoPix (pedido : Pedido) : Except Unit Bool :=
  match pedido.valor with
  | none => Except.error ()
  | some _ => Except.ok true

/-- `NotificadorEmail.enviar_notificacao`: prints a line reading
`pedido['cliente_email']` and returns `True`. -/
def NotificadorEmail (pedido : Pedido) : Except Unit Bool :=
  match pedido.cliente_email with
  | none => Except.error ()
  | some _ => Except.ok true

/-- `NotificadorSMS.enviar_notificacao`: prints a line reading
`pedido['id']` and returns `True`. -/
def NotificadorSMS (pedido : Pedido) : Except Unit Bool :=
  match pedido.id with
  | none => Except.error ()
  | some _ => Except.ok true

/-- `ProcessadorDePedidos.__init__`: one payment method and an ordered
list of notifiers, both injected. -/
structure ProcessadorDePedidos where
  metodo_pagamento : Pedido → Except Unit Bool
  notificadores : List (Pedido → Except Unit Bool)

/-- Observable calls made during `processar`: the payment call, and the
notifier call at position `i` of the injected list. -/
inductive Evento where
  | pagamento : Evento
  | notificacao (i : Nat) : Evento
deriving DecidableEq, Repr

/-- The `for notificador in self.notificadores` loop: each notifier is
called in list order; `i` is the position of the head of `ns` in the full
injected list.  A call is recorded in the trace even when it raises, in
which case the loop stops and the exception propagates. -/
def enviarNotificacoes (pedido : Pedido) :
    List (Pedido → Except Unit Bool) → Nat → Except Unit Unit × List Evento
  | [], _ => (Except.ok (), [])
  | f :: fs, i =>
    match f pedido with
    | Except.ok _ =>
      let r := enviarNotificacoes pedido fs (i + 1)
      (r.1, Evento.notificacao i :: r.2)
    | Except.error e => (Except.error e, [Evento.notificacao i])

/-- The `try` block of `ProcessadorDePedidos.processar`, statement by
statement: (1) the opening print reads `pedido['id']` then
`pedido['valor']` (raising if either is absent); (2) the payment call,
returning `False` when it yields `False`; (3) the notifier loop;
(4) `pedido['status'] = 'concluido'` and `return True`.  The result is
the returned boolean together with the order as left by the block, plus
the trace of calls made (also on the exception path). -/
def processarCorpo (self : ProcessadorDePedidos) (pedido : Pedido) :
    Except Unit (Bool × Pedido) × List Evento :=
  match pedido.id with
  | none => (Except.error (), [])
  | some _ =>
    match pedido.valor with
    | none => (Except.error (), [])
    | some _ =>
      match self.metodo_pagamento pedido with
      | Except.error e => (Except.error e, [Evento.pagamento])
      | Except.ok b =>
        if b = false then
          (Except.ok (false, pedido), [Evento.pagamento])
        else
          let r := enviarNotificacoes pedido self.notificadores 0
          match r.1 with
          | Except.error e => (Except.error e, Evento.pagamento :: r.2)
          | Except.ok _ =>
            (Except.ok (true, { pedido with status := some "concluido" }),
              Evento.pagamento :: r.2)

/-- `ProcessadorDePedidos.processar`: the `try` block wrapped in the
top-level `except Exception`, which logs and returns `False`.  As argued
above, on the exception path the order still holds its input value. -/
def processar (self : ProcessadorDePedidos) (pedido : Pedido) :
    Bool × Pedido × List Evento :=
  match processarCorpo self pedido with
  | (Except.ok (b, p), evs) => (b, p, evs)
  | (Except.error _, evs) => (false, pedido, evs)

/-- `FabricaProcessadores.criar_processador_cartao_email`. -/
def criar_processador_cartao_email : ProcessadorDePedidos :=
  { metodo_pagamento := PagamentoCartaoCredito
    notificadores := [NotificadorEmail] }

/-- `FabricaProcessadores.criar_processador_boleto_email`. -/
def criar_processador_boleto_email : ProcessadorDePedidos :=
  { metodo_pagamento := PagamentoBoleto
    notificadores := [NotificadorEmail] }

/-- `FabricaProcessadores.criar_processador_pix_sms_email`. -/
def criar_processador_pix_sms_email : ProcessadorDePedidos :=
  { metodo_pagamento := PagamentoPix
    notificadores := [NotificadorSMS, NotificadorEmail] }

/-- A valid order: all four keys present, status initially `'pendente'`
(the data model's initial value). -/
def pedidoValido (p : Pedido) : Prop :=
  p.id.isSome ∧ p.valor.isSome ∧ p.cliente_email.isSome ∧
    p.status = some "pendente"

instance (p : Pedido) : Decidable (pedidoValido p) := by
  unfold pedidoValido; infer_instance

/-- The sample order `pedido1` from the source's driver code. -/
def pedido1 : Pedido :=
  { id := some 123
    valor := some (15075 / 100 : ℚ)
    cliente_email := some "cliente@exemplo.com"
    status := some "pendente" }

/-- An order missing the `'id'` key (used to exercise the exception path). -/
def pedidoSemId : Pedido :=
  { id := none
    valor := some 150
    cliente_email := some "cliente@exemplo.com"
    status := some "pendente" }

/-- A simple valid order with round amounts (convenient for evaluation). -/
def pedidoSimples : Pedido :=
  { id := some 1
    valor := some 150
    cliente_email := some "a@b.com"
    status := some "pendente" }

/-- If every notifier in `ns` returns a boolean (does not raise) on
`pedido`, the loop terminates normally and its trace is one call per
notifier, at the consecutive positions starting from `i`. -/
lemma enviarNotificacoes_ok (pedido : Pedido)
    (ns : List (Pedido → Except Unit Bool))
    (h : ∀ f ∈ ns, ∃ b, f pedido = Except.ok b) :
    ∀ i, enviarNotificacoes pedido ns i =
      (Except.ok (), (List.range' i ns.length).map Evento.notificacao) := by
  induction ns with
  | nil => intro i; simp [enviarNotificacoes]
  | cons f fs ih =>
    intro i
    obtain ⟨b, hb⟩ := h f (List.mem_cons_self f fs)
    have ih' := ih (fun g hg => h g (List.mem_cons_of_mem f hg)) (i + 1)
    simp [enviarNotificacoes, hb, ih', List.range'_succ]

/-- If the loop terminates normally, its trace is one call per notifier at
the consecutive positions starting from `i` (the loop only returns `ok`
after calling every notifier). -/
lemma enviarNotificacoes_ok_trace (pedido : Pedido)
    (ns : List (Pedido → Except Unit Bool)) :
    ∀ i evs, enviarNotificacoes pedido ns i = (Except.ok (), evs) →
      evs = (List.range' i ns.length).map Evento.notificacao := by
  induction ns with
  | nil => intro i evs h; simp [enviarNotificacoes] at h; simp [h]
  | cons f fs ih =>
    intro i evs h
    unfold enviarNotificacoes at h
    rcases hf : f pedido with e | b <;> rw [hf] at h
    · simp at h
    · rcases hrec : enviarNotificacoes pedido fs (i + 1) with ⟨r, evs'⟩
      rw [hrec] at h
      simp at h
      obtain ⟨hr, hevs⟩ := h
      have := ih (i + 1) evs' (by rw [hrec, hr])
      simp [← hevs, this, List.range'_succ]

/-- Structural characterisation of `processar`: either it returns `false`
with the order unchanged, or it returns `true` with exactly the status
field set to `'concluido'` and a trace of one payment call followed by one
call to each notifier in list order. -/
lemma processar_spec (self : ProcessadorDePedidos) (pedido : Pedido) :
    (∃ evs, processar self pedido = (false, pedido, evs)) ∨
    processar self pedido =
      (true, { pedido with status := some "concluido" },
        Evento.pagamento ::
          (List.range self.notificadores.length).map Evento.notificacao) := by
  rcases hid : pedido.id with _ | i
  · exact Or.inl ⟨[], by simp [processar, processarCorpo, hid]⟩
  rcases hval : pedido.valor with _ | v
  · exact Or.inl ⟨[], by simp [processar, processarCorpo, hid, hval]⟩
  rcases hmp : self.metodo_pagamento pedido with e | b
  · exact Or.inl ⟨[Evento.pagamento],
      by simp [processar, processarCorpo, hid, hval, hmp]⟩
  rcases b with _ | _
  · exact Or.inl ⟨[Evento.pagamento],
      by simp [processar, processarCorpo, hid, hval, hmp]⟩
  rcases hen : enviarNotificacoes pedido self.notificadores 0 with ⟨r, evs⟩
  rcases r with e | u
  · exact Or.inl ⟨Evento.pagamento :: evs,
      by simp [processar, processarCorpo, hid, hval, hmp, hen]⟩
  right
  have hevs := enviarNotificacoes_ok_trace pedido self.notificadores 0 evs
    (by rw [hen])
  simp [processar, processarCorpo, hid, hval, hmp, hen, hevs,
    List.range_eq_range']

/-- Shape of a fully successful run: required print keys present, payment
returns `true`, no notifier raises. -/
lemma processar_ok_shape (mp : Pedido → Except Unit Bool)
    (ns : List (Pedido → Except Unit Bool)) (pedido : Pedido)
    (hid : pedido.id.isSome) (hval : pedido.valor.isSome)
    (hmp : mp pedido = Except.ok true)
    (hns : ∀ f ∈ ns, ∃ b, f pedido = Except.ok b) :
    processar ⟨mp, ns⟩ pedido =
      (true, { pedido with status := some "concluido" },
        Evento.pagamento :: (List.range ns.length).map Evento.notificacao) := by
  obtain ⟨i, hi⟩ := Option.isSome_iff_exists.mp hid
  obtain ⟨v, hv⟩ := Option.isSome_iff_exists.mp hval
  have hen := enviarNotificacoes_ok pedido ns hns 0
  simp [processar, processarCorpo, hi, hv, hmp, hen, List.range_eq_range']

/-- Shape of a run whose payment step returns `false`: immediate `false`,
order unchanged, no notifier called. -/
lemma processar_falha_shape (mp : Pedido → Except Unit Bool)
    (ns : List (Pedido → Except Unit Bool)) (pedido : Pedido)
    (hid : pedido.id.isSome) (hval : pedido.valor.isSome)
    (hmp : mp pedido = Except.ok false) :
    processar ⟨mp, ns⟩ pedido = (false, pedido, [Evento.pagamento]) := by
  obtain ⟨i, hi⟩ := Option.isSome_iff_exists.mp hid
  obtain ⟨v, hv⟩ := Option.isSome_iff_exists.mp hval
  simp [processar, processarCorpo, hi, hv, hmp]

/-- A payment-method test double that always declines (returns `False`),
as the spec's testable properties require for exercising the failure
branch. -/
def pagamentoRecusado (_ : Pedido) : Except Unit Bool :=
  Except.ok false

/-- A notifier that never raises: it computes a boolean from the order
and returns it.  Such notifiers conform to the declared
`Notificador.enviar_notificacao(pedido) -> bool` interface. -/
def pureNotificador (f : Pedido → Bool) : Pedido → Except Unit Bool :=
  fun p => Except.ok (f p)

/-- C1: for every valid order, a processor whose payment method returns
`true` (and whose notifiers conform to the interface, returning a
boolean) returns `true` from `processar` and leaves the order's status
equal to `'concluido'`. -/
theorem processar_pagamento_ok_conclui
    (mp : Pedido → Except Unit Bool) (ns : List (Pedido → Except Unit Bool))
    (pedido : Pedido) (hv : pedidoValido pedido)
    (hmp : mp pedido = Except.ok true)
    (hns : ∀ f ∈ ns, ∃ b, f pedido = Except.ok b) :
    (processar ⟨mp, ns⟩ pedido).1 = true ∧
    (processar ⟨mp, ns⟩ pedido).2.1.status = some "concluido" := by
  have h := processar_ok_shape mp ns pedido hv.1 hv.2.1 hmp hns
  rw [h]
  exact ⟨rfl, rfl⟩

/-- Witness for C1: the credit-card + email configuration on a concrete
valid order. -/
theorem processar_pagamento_ok_conclui_witness :
    (processar ⟨PagamentoCartaoCredito, [NotificadorEmail]⟩ pedidoSimples).1
        = true ∧
    (processar ⟨PagamentoCartaoCredito, [NotificadorEmail]⟩
        pedidoSimples).2.1.status = some "concluido" :=
  processar_pagamento_ok_conclui PagamentoCartaoCredito [NotificadorEmail]
    pedidoSimples (by decide) rfl
    (by
      intro f hf
      rw [List.mem_singleton] at hf
      subst hf
      exact ⟨true, rfl⟩)

/-- C2: for every valid order, a processor whose payment method returns
`false` returns `false` from `processar`, leaves the status equal to
`'pendente'` (unchanged), and calls no notifier: the trace is exactly the
one payment call. -/
theorem processar_pagamento_falso_pendente
    (mp : Pedido → Except Unit Bool) (ns : List (Pedido → Except Unit Bool))
    (pedido : Pedido) (hv : pedidoValido pedido)
    (hmp : mp pedido = Except.ok false) :
    (processar ⟨mp, ns⟩ pedido).1 = false ∧
    (processar ⟨mp, ns⟩ pedido).2.1.status = some "pendente" ∧
    (processar ⟨mp, ns⟩ pedido).2.2 = [Evento.pagamento] ∧
    ∀ i, Evento.notificacao i ∉ (processar ⟨mp, ns⟩ pedido).2.2 := by
  have h := processar_falha_shape mp ns pedido hv.1 hv.2.1 hmp
  rw [h]
  exact ⟨rfl, hv.2.2.2, rfl, by intro i; simp⟩

/-- Witness for C2: a declining payment double with an email notifier on
a concrete valid order. -/
theorem processar_pagamento_falso_pendente_witness :
    (processar ⟨pagamentoRecusado, [NotificadorEmail]⟩ pedidoSimples).1
        = false ∧
    (processar ⟨pagamentoRecusado, [NotificadorEmail]⟩
        pedidoSimples).2.1.status = some "pendente" ∧
    (processar ⟨pagamentoRecusado, [NotificadorEmail]⟩ pedidoSimples).2.2
        = [Evento.pagamento] ∧
    ∀ i, Evento.notificacao i ∉
      (processar ⟨pagamentoRecusado, [NotificadorEmail]⟩ pedidoSimples).2.2 :=
  processar_pagamento_falso_pendente pagamentoRecusado [NotificadorEmail]
    pedidoSimples (by decide) rfl

/-- C3: whenever the `try` block of `processar` raises (a notifier or the
payment method throwing, or a required key missing from the order), the
top-level catch converts the exception into a `false` return, with the
order unchanged; `processar` itself is a total function and never
propagates an exception. -/
theorem processar_captura_excecao (self : ProcessadorDePedidos)
    (pedido : Pedido)
    (h : (processarCorpo self pedido).1 = Except.error ()) :
    (processar self pedido).1 = false ∧
    (processar self pedido).2.1 = pedido := by
  rcases hpc : processarCorpo self pedido with ⟨r, evs⟩
  rw [hpc] at h
  simp only at h
  subst h
  simp [processar, hpc]

/-- Witness for C3: an order missing the `'id'` key makes the opening
print raise `KeyError`; `processar` returns `false` with the order
unchanged. -/
theorem processar_captura_excecao_witness :
    (processar criar_processador_cartao_email pedidoSemId).1 = false ∧
    (processar criar_processador_cartao_email pedidoSemId).2.1
        = pedidoSemId :=
  processar_captura_excecao criar_processador_cartao_email pedidoSemId rfl

/-- C4: for every order whose status is in the data model's enumeration,
`processar` either leaves the status unchanged, or moves it from
`'pendente'` to `'concluido'`, and the latter only after the payment call
and one call to every notifier have all been made; no other status
transition occurs. -/
theorem status_transicao_pendente_concluido (self : ProcessadorDePedidos)
    (pedido : Pedido)
    (h : pedido.status = some "pendente" ∨
      pedido.status = some "concluido") :
    (processar self pedido).2.1.status = pedido.status ∨
      (pedido.status = some "pendente" ∧
        (processar self pedido).2.1.status = some "concluido" ∧
        (processar self pedido).2.2 =
          Evento.pagamento ::
            (List.range self.notificadores.length).map Evento.notificacao) := by
  rcases processar_spec self pedido with ⟨evs, hp⟩ | hp
  · left
    rw [hp]
  · rcases h with h | h
    · right
      exact ⟨h, by rw [hp], by rw [hp]⟩
    · left
      rw [hp]
      exact h.symm

/-- Witness for C4: the boleto + email configuration on a concrete
pending order. -/
theorem status_transicao_pendente_concluido_witness :
    (processar criar_processador_boleto_email pedidoSimples).2.1.status
        = pedidoSimples.status ∨
      (pedidoSimples.status = some "pendente" ∧
        (processar criar_processador_boleto_email
            pedidoSimples).2.1.status = some "concluido" ∧
        (processar criar_processador_boleto_email pedidoSimples).2.2 =
          Evento.pagamento ::
            (List.range
              criar_processador_boleto_email.notificadores.length).map
              Evento.notificacao) :=
  status_transicao_pendente_concluido criar_processador_boleto_email
    pedidoSimples (Or.inl rfl)

/-- C5: when the opening print succeeds and the payment step returns
`true`, `processar` calls each interface-conforming notifier exactly
once, in the exact order the notifiers were supplied at construction
time (trace positions 0, 1, …, n-1), and the booleans the notifiers
return do not affect the result: for any other conforming notifier list
the returned boolean is the same. -/
theorem notificadores_ordem_unica (mp : Pedido → Except Unit Bool)
    (ns ns' : List (Pedido → Bool)) (pedido : Pedido)
    (hid : pedido.id.isSome) (hval : pedido.valor.isSome)
    (hmp : mp pedido = Except.ok true) :
    (processar ⟨mp, ns.map pureNotificador⟩ pedido).2.2 =
      Evento.pagamento ::
        (List.range ns.length).map Evento.notificacao ∧
    (processar ⟨mp, ns.map pureNotificador⟩ pedido).1 = true ∧
    (processar ⟨mp, ns'.map pureNotificador⟩ pedido).1 =
      (processar ⟨mp, ns.map pureNotificador⟩ pedido).1 := by
  have key : ∀ ms : List (Pedido → Bool),
      processar ⟨mp, ms.map pureNotificador⟩ pedido =
        (true, { pedido with status := some "concluido" },
          Evento.pagamento ::
            (List.range ms.length).map Evento.notificacao) := by
    intro ms
    have h := processar_ok_shape mp (ms.map pureNotificador) pedido hid hval
      hmp
      (by
        intro f hf
        obtain ⟨g, hg, rfl⟩ := List.mem_map.mp hf
        exact ⟨g pedido, rfl⟩)
    simpa using h
  refine ⟨by rw [key ns], by rw [key ns], by rw [key ns', key ns]⟩

/-- Witness for C5: Pix payment with two boolean notifiers, one of which
reports failure, compared against a single-notifier list. -/
theorem notificadores_ordem_unica_witness :
    (processar ⟨PagamentoPix,
        [fun _ => true, fun _ => false].map pureNotificador⟩
        pedidoSimples).2.2 =
      Evento.pagamento ::
        (List.range 2).map Evento.notificacao ∧
    (processar ⟨PagamentoPix,
        [fun _ => true, fun _ => false].map pureNotificador⟩
        pedidoSimples).1 = true ∧
    (processar ⟨PagamentoPix, [fun _ => false].map pureNotificador⟩
        pedidoSimples).1 =
      (processar ⟨PagamentoPix,
        [fun _ => true, fun _ => false].map pureNotificador⟩
        pedidoSimples).1 :=
  notificadores_ordem_unica PagamentoPix [fun _ => true, fun _ => false]
    [fun _ => false] pedidoSimples (by decide) (by decide) rfl

/-- C6: `processar` mutates only the order's status field, and only on a
`true` return; id, amount and customer e-mail are unchanged, on failure
the whole order is unchanged, and (the components being read-only per
the interface) no component other than the processor writes to the
order. -/
theorem processar_frame (self : ProcessadorDePedidos) (pedido : Pedido) :
    (processar self pedido).2.1.id = pedido.id ∧
    (processar self pedido).2.1.valor = pedido.valor ∧
    (processar self pedido).2.1.cliente_email = pedido.cliente_email ∧
    ((processar self pedido).1 = false →
      (processar self pedido).2.1 = pedido) ∧
    ((processar self pedido).1 = true →
      (processar self pedido).2.1 =
        { pedido with status := some "concluido" }) := by
  rcases processar_spec self pedido with ⟨evs, hp⟩ | hp <;> rw [hp]
  · exact ⟨rfl, rfl, rfl, fun _ => rfl, fun h => by simp at h⟩
  · exact ⟨rfl, rfl, rfl, fun h => by simp at h, fun _ => rfl⟩

/-- Witness for C6: on a successful concrete run only the status field
changes. -/
theorem processar_frame_witness :
    (processar criar_processador_pix_sms_email pedidoSimples).2.1 =
      { pedidoSimples with status := some "concluido" } :=
  (processar_frame criar_processador_pix_sms_email
    pedidoSimples).2.2.2.2 rfl

/-- C7: with the required keys present, every payment variant returns
`True` from `processar_pagamento` and every notifier variant returns
`True` from `enviar_notificacao`, unconditionally. -/
theorem variantes_sempre_ok (pedido : Pedido)
    (hid : pedido.id.isSome) (hval : pedido.valor.isSome)
    (hemail : pedido.cliente_email.isSome) :
    PagamentoCartaoCredito pedido = Except.ok true ∧
    PagamentoBoleto pedido = Except.ok true ∧
    PagamentoPix pedido = Except.ok true ∧
    NotificadorEmail pedido = Except.ok true ∧
    NotificadorSMS pedido = Except.ok true := by
  obtain ⟨i, hi⟩ := Option.isSome_iff_exists.mp hid
  obtain ⟨v, hv⟩ := Option.isSome_iff_exists.mp hval
  obtain ⟨e, he⟩ := Option.isSome_iff_exists.mp hemail
  simp [PagamentoCartaoCredito, PagamentoBoleto, PagamentoPix,
    NotificadorEmail, NotificadorSMS, hi, hv, he]

/-- Witness for C7: all five variants on the source's sample order. -/
theorem variantes_sempre_ok_witness :
    PagamentoCartaoCredito pedido1 = Except.ok true ∧
    PagamentoBoleto pedido1 = Except.ok true ∧
    PagamentoPix pedido1 = Except.ok true ∧
    NotificadorEmail pedido1 = Except.ok true ∧
    NotificadorSMS pedido1 = Except.ok true :=
  variantes_sempre_ok pedido1 (by decide)
    (by simp [pedido1]) (by decide)

/-- C8: the factory's three constructors wire processors exactly as
named: credit card with [email], boleto with [email], and Pix with
[SMS, email] in that order; each is pure construction. -/
theorem fabrica_configuracoes :
    criar_processador_cartao_email.metodo_pagamento
        = PagamentoCartaoCredito ∧
    criar_processador_cartao_email.notificadores = [NotificadorEmail] ∧
    criar_processador_boleto_email.metodo_pagamento = PagamentoBoleto ∧
    criar_processador_boleto_email.notificadores = [NotificadorEmail] ∧
    criar_processador_pix_sms_email.metodo_pagamento = PagamentoPix ∧
    criar_processador_pix_sms_email.notificadores
        = [NotificadorSMS, NotificadorEmail] :=
  ⟨rfl, rfl, rfl, rfl, rfl, rfl⟩

/-- C9: whenever `processar` returns `false` — declined payment or caught
exception — the order is left completely unchanged, every field
included. -/
theorem processar_falso_inalterado (self : ProcessadorDePedidos)
    (pedido : Pedido) (h : (processar self pedido).1 = false) :
    (processar self pedido).2.1 = pedido := by
  rcases processar_spec self pedido with ⟨evs, hp⟩ | hp
  · rw [hp]
  · rw [hp] at h
    simp at h

/-- Witness for C9: the exception path (order missing `'id'`) leaves the
order untouched. -/
theorem processar_falso_inalterado_witness :
    (processar criar_processador_boleto_email pedidoSemId).2.1
        = pedidoSemId :=
  processar_falso_inalterado criar_processador_boleto_email pedidoSemId
    rfl

/-- C10: a processor built with an empty notifier list is accepted; on a
valid order whose payment succeeds, `processar` returns `true` and sets
the status to `'concluido'`, and the trace holds the payment call only —
no notification is made. -/
theorem processar_sem_notificadores (mp : Pedido → Except Unit Bool)
    (pedido : Pedido) (hv : pedidoValido pedido)
    (hmp : mp pedido = Except.ok true) :
    processar ⟨mp, []⟩ pedido =
      (true, { pedido with status := some "concluido" },
        [Evento.pagamento]) := by
  have h := processar_ok_shape mp [] pedido hv.1 hv.2.1 hmp
    (by intro f hf; cases hf)
  simpa using h

/-- Witness for C10: Pix payment, no notifiers, concrete valid order. -/
theorem processar_sem_notificadores_witness :
    processar ⟨PagamentoPix, []⟩ pedidoSimples =
      (true, { pedidoSimples with status := some "concluido" },
        [Evento.pagamento]) :=
  processar_sem_notificadores PagamentoPix pedidoSimples (by decide) rfl
